import Mathlib

/-!
Shallow embedding of the transaction-aggregation core of the NEAR
token-transfer-accounting service (`src/tta/tta_impl.rs`,
`src/tta/sql/sql_queries.rs`, `src/tta/utils.rs`, `src/tta/ft_metadata.rs`).

Modelling conventions:
- Rust `f64` amounts are embedded as exact rationals.  Every comparison the
  claims touch (equality with zero, the `0.0001` threshold, the `0.5`
  gas-refund bound, multiplication by `-1.0`) is exact at these values, so
  the zero/sign/threshold structure of the code is preserved.
- `u128` values are embedded as `Nat` with the source's integer `/` and `%`.
- Fallible calls (`Result<T>`) are embedded as `Except String T`; a row task
  that returns `Err`, panics, or is skipped yields `none` at the row level,
  matching how `handle_txns` discards such rows.
- JSON blobs are embedded post-parse: `args_base64` carries the JSON value
  the base64 blob decodes to, and `deposit` carries the parsed yocto amount
  (the source panics the row task on an unparsable deposit, so rows that
  reach any claim carry parseable deposits).
- The chain services consumed by one row (`assert_ft_metadata`,
  `assert_ft_balance`, `get_near_balance`) are embedded as deterministic
  oracles; caching and rate limiting are invisible to a single row's result.
-/

/-- A JSON value, the post-parse form of the base64 function-call blob. -/
inductive Json where
  | null : Json
  | bool (b : Bool) : Json
  | num (n : Int) : Json
  | str (s : String) : Json
  | arr (elems : List Json) : Json
  | obj (fields : List (String × Json)) : Json

/-- Association-list lookup, modelling the source's string-keyed map reads. -/
def alist_get {α : Type} (l : List (String × α)) (key : String) : Option α :=
  match l with
  | [] => none
  | p :: rest => if p.1 = key then some p.2 else alist_get rest key

/-- Look up a field of a JSON object. -/
def Json.find (j : Json) (key : String) : Option Json :=
  match j with
  | .obj fields => alist_get fields key
  | _ => none

/-- Read a JSON string. -/
def Json.asString : Json → Option String
  | .str s => some s
  | _ => none

/-- Accumulate decimal digits into a number, failing on a non-digit. -/
def chars_to_nat : List Char → Nat → Option Nat
  | [], acc => some acc
  | c :: cs, acc =>
      if 48 ≤ c.toNat ∧ c.toNat ≤ 57 then chars_to_nat cs (acc * 10 + (c.toNat - 48))
      else none

/-- Parse a non-empty decimal string. -/
def str_to_nat (s : String) : Option Nat :=
  match s.data with
  | [] => none
  | l => chars_to_nat l 0

/-- Read a `U128` the way near-sdk serializes it: a decimal string. -/
def Json.asU128 (j : Json) : Option Nat :=
  j.asString.bind str_to_nat

/-- Token metadata, from `ft_metadata.rs` (`FtMetadata`). -/
structure FtMetadata where
  spec : String := ""
  name : String := ""
  symbol : String
  icon : Option String := none
  reference : Option String := none
  reference_hash : Option String := none
  decimals : Nat

/-- Decoded action arguments (`TaArgs` in `sql/models.rs`), trimmed to the
fields `tta_impl.rs` reads.  `deposit` is the parsed yocto amount and
`args_base64` the parsed JSON value of the decoded blob (see header). -/
structure TaArgs where
  gas : Option Int := none
  deposit : Option Nat := none
  args_base64 : Option Json := none
  method_name : Option String := none

/-- A candidate row (`Transaction` in `sql/models.rs`), trimmed to the
attributes the aggregation core reads. -/
structure Transaction where
  t_transaction_hash : String
  r_receiver_account_id : String
  ara_action_kind : String
  ara_args : TaArgs
  ara_receipt_predecessor_account_id : String
  b_block_height : Nat
  b_block_timestamp : Nat

/-- Classified directional movement (`FtAmounts` in `tta/models.rs`,
reconstructed from its uses in `get_ft_amounts`). -/
structure FtAmounts where
  ft_amount_out : Option ℚ
  ft_currency_out : Option String
  ft_amount_in : Option ℚ
  ft_currency_in : Option String
  from_account : String
  to_account : String

/-- An output row (`ReportRow`), fields as built in `handle_txns`. -/
structure ReportRow where
  account_id : String
  date : String
  method_name : String
  block_timestamp : Nat
  from_account : String
  block_height : Nat
  args : Json
  transaction_hash : String
  amount_transferred : ℚ
  currency_transferred : String
  ft_amount_out : Option ℚ
  ft_currency_out : Option String
  ft_amount_in : Option ℚ
  ft_currency_in : Option String
  to_account : String
  amount_staked : ℚ
  onchain_balance : Option ℚ := none
  onchain_balance_token : Option String := none
  metadata : Option String := none

/-- The three query classes (`TransactionType`). -/
inductive TransactionType where
  | Incoming : TransactionType
  | FtIncoming : TransactionType
  | Outgoing : TransactionType
deriving DecidableEq, BEq

/-- The method taxonomy.  The variant set is fixed by the exhaustive match in
`get_ft_amounts` (`tta_impl.rs` lines 429-542): it names exactly these seven
variants and Rust requires the match to cover the whole enum, so `MethodName`
has no other variant — in particular no `Swap` variant. -/
inductive MethodName where
  | FtTransfer : MethodName
  | FtTransferCall : MethodName
  | Withdraw : MethodName
  | NearDeposit : MethodName
  | NearWithdraw : MethodName
  | Mint : MethodName
  | Unsupported : MethodName
deriving DecidableEq

/-- Modelled from the spec: the `From<str>` impl for `MethodName` lives
outside `src/`.  The spec says the recognized method-name strings map to
their variants and "all others map to the sink variant `Unsupported`"; the
enum (fixed by the exhaustive match in `get_ft_amounts`) has variants only
for the six strings below, so every other string — including "swap", which
has no variant to land in — falls to `Unsupported`. -/
def MethodName.fromString (s : String) : MethodName :=
  if s = "ft_transfer" then .FtTransfer
  else if s = "ft_transfer_call" then .FtTransferCall
  else if s = "withdraw" then .Withdraw
  else if s = "near_deposit" then .NearDeposit
  else if s = "near_withdraw" then .NearWithdraw
  else if s = "mint" then .Mint
  else .Unsupported

/-- Modelled from the spec: argument shape of `ft_transfer`
(struct `FtTransfer` in `tta/models.rs`, outside `src/`). -/
structure FtTransfer where
  receiver_id : String
  amount : Nat
  memo : Option String := none

/-- Modelled from the spec: argument shape of `ft_transfer_call`
(struct `FtTransferCall`, outside `src/`). -/
structure FtTransferCall where
  receiver_id : String
  amount : Nat
  msg : String
  memo : Option String := none

/-- Modelled from the spec: argument shape of `withdraw` / `near_withdraw`
(struct `WithdrawFromBridge`, outside `src/`). -/
structure WithdrawFromBridge where
  amount : Nat

/-- Modelled from the spec: argument shape of the bridge `mint`
(struct `RainbowBridgeMint`, outside `src/`). -/
structure RainbowBridgeMint where
  account_id : String
  amount : Nat

/-- Parse `FtTransfer` from the decoded blob (`serde_json::from_str`). -/
def parse_ft_transfer (j : Json) : Option FtTransfer :=
  match (j.find "receiver_id").bind Json.asString, (j.find "amount").bind Json.asU128 with
  | some r, some a =>
      some { receiver_id := r, amount := a, memo := (j.find "memo").bind Json.asString }
  | _, _ => none

/-- Parse `FtTransferCall` from the decoded blob. -/
def parse_ft_transfer_call (j : Json) : Option FtTransferCall :=
  match (j.find "receiver_id").bind Json.asString, (j.find "amount").bind Json.asU128,
        (j.find "msg").bind Json.asString with
  | some r, some a, some m =>
      some { receiver_id := r, amount := a, msg := m, memo := (j.find "memo").bind Json.asString }
  | _, _, _ => none

/-- Parse `WithdrawFromBridge` from the decoded blob. -/
def parse_withdraw_from_bridge (j : Json) : Option WithdrawFromBridge :=
  match (j.find "amount").bind Json.asU128 with
  | some a => some { amount := a }
  | none => none

/-- Parse `RainbowBridgeMint` from the decoded blob. -/
def parse_rainbow_bridge_mint (j : Json) : Option RainbowBridgeMint :=
  match (j.find "account_id").bind Json.asString, (j.find "amount").bind Json.asU128 with
  | some acc, some a => some { account_id := acc, amount := a }
  | _, _ => none

/-- One NEAR in yocto units (`near_sdk::ONE_NEAR`). -/
def ONE_NEAR : Nat := 10 ^ 24

/-- Split-quotient scaling (`safe_divide_u128` in `tta_impl.rs`):
integer quotient plus scaled remainder. -/
def safe_divide_u128 (a : Nat) (decimals : Nat) : ℚ :=
  let divisor : Nat := 10 ^ decimals
  ((a / divisor : Nat) : ℚ) + ((a % divisor : Nat) : ℚ) / ((divisor : Nat) : ℚ)

/-- Native amount of a row (`get_near_transferred`): the deposit scaled by
`10^24`, normalized to zero below the `0.0001` threshold, zero when absent. -/
def get_near_transferred (txn_args : TaArgs) : ℚ :=
  match txn_args.deposit with
  | none => 0
  | some deposit =>
      let nears : Nat := deposit / ONE_NEAR
      let remainder : Nat := deposit % ONE_NEAR
      let amount : ℚ := (nears : ℚ) + (remainder : ℚ) / (ONE_NEAR : ℚ)
      if mkRat 1 10000 ≤ amount then amount else 0

/-- Decoded function-call blob (`decode_transaction_args`): the blob's JSON
value, or the empty object when `args_base64` is absent. -/
def decode_transaction_args (txn_args : TaArgs) : Json :=
  txn_args.args_base64.getD (Json.obj [])

/-- Row method name for the report (`get_method_name`). -/
def get_method_name (txn : Transaction) (txn_args : TaArgs) : String :=
  if txn.ara_action_kind ≠ "FUNCTION_CALL" then txn.ara_action_kind
  else txn_args.method_name.getD ""

/-- Month names used by the `%B` date format. -/
def month_name (m : Nat) : String :=
  ["January", "February", "March", "April", "May", "June", "July",
   "August", "September", "October", "November", "December"].getD (m - 1) "January"

/-- Two-digit zero padding used by the `%d` date format. -/
def pad2 (n : Nat) : String :=
  if n < 10 then "0" ++ toString n else toString n

/-- Proleptic-Gregorian civil date from days since 1970-01-01. -/
def civil_from_days (days : Nat) : Nat × Nat × Nat :=
  let z := days + 719468
  let era := z / 146097
  let doe := z % 146097
  let yoe := (doe - doe / 1460 + doe / 36524 - doe / 146097) / 365
  let y := yoe + era * 400
  let doy := doe - (365 * yoe + yoe / 4 - yoe / 100)
  let mp := (5 * doy + 2) / 153
  let d := doy - (153 * mp + 2) / 5 + 1
  let m := if mp < 10 then mp + 3 else mp - 9
  (if m ≤ 2 then y + 1 else y, m, d)

/-- Row date string (`get_transaction_date`): block timestamp in nanoseconds
rendered as "Month DD, YYYY". -/
def get_transaction_date (txn : Transaction) : String :=
  let seconds := txn.b_block_timestamp / 1000000000
  let ymd := civil_from_days (seconds / 86400)
  month_name ymd.2.1 ++ " " ++ pad2 ymd.2.2 ++ ", " ++ toString ymd.1

/-- Chain services one row consults (`FtService`), as deterministic oracles:
`ft_metadata token`, `ft_balance token account block_height`,
`near_balance account block_height`. -/
structure FtService where
  ft_metadata : String → Except String FtMetadata
  ft_balance : String → String → Nat → Except String ℚ
  near_balance : String → Nat → Except String (Option (ℚ × ℚ))

/-- Metadata fetch used by the classifier (`TTA::get_metadata`). -/
def get_metadata (svc : FtService) (token_id : String) : Except String FtMetadata :=
  svc.ft_metadata token_id

/-- The `ft_transfer` arm of `get_ft_amounts`: one leg on the side given by
the direction, scaled by the token's decimals. -/
def classify_ft_transfer (svc : FtService) (is_incoming : Bool) (txn : Transaction)
    (function_call_args : Json) : Except String (Option FtAmounts) :=
  match get_metadata svc txn.r_receiver_account_id with
  | .error e => .error e
  | .ok metadata =>
      match parse_ft_transfer function_call_args with
      | none => .error "Invalid ft_transfer args"
      | some ft_transfer_args =>
          if is_incoming then
            .ok (some { ft_amount_out := none, ft_currency_out := none,
                        ft_amount_in := some (safe_divide_u128 ft_transfer_args.amount
                          metadata.decimals),
                        ft_currency_in := some metadata.symbol,
                        from_account := txn.ara_receipt_predecessor_account_id,
                        to_account := ft_transfer_args.receiver_id })
          else
            .ok (some { ft_amount_out := some (safe_divide_u128 ft_transfer_args.amount
                          metadata.decimals),
                        ft_currency_out := some metadata.symbol,
                        ft_amount_in := none, ft_currency_in := none,
                        from_account := txn.ara_receipt_predecessor_account_id,
                        to_account := ft_transfer_args.receiver_id })

/-- The `ft_transfer_call` arm of `get_ft_amounts`: an out leg regardless of
the direction (the source comment reads "No need to handle incoming. it
comes as ft_transfer in case of swap", and the built movement ignores
`is_incoming`). -/
def classify_ft_transfer_call (svc : FtService) (txn : Transaction)
    (function_call_args : Json) : Except String (Option FtAmounts) :=
  match get_metadata svc txn.r_receiver_account_id with
  | .error e => .error e
  | .ok metadata =>
      match parse_ft_transfer_call function_call_args with
      | none => .error "Invalid ft_transfer args"
      | some ft_transfer_args =>
          .ok (some { ft_amount_out := some (safe_divide_u128 ft_transfer_args.amount
                        metadata.decimals),
                      ft_currency_out := some metadata.symbol,
                      ft_amount_in := none, ft_currency_in := none,
                      from_account := txn.ara_receipt_predecessor_account_id,
                      to_account := ft_transfer_args.receiver_id })

/-- The `withdraw` arm of `get_ft_amounts`: an out leg, only when the
receiver is a bridge factory. -/
def classify_withdraw (svc : FtService) (txn : Transaction)
    (function_call_args : Json) : Except String (Option FtAmounts) :=
  if txn.r_receiver_account_id.endsWith ".factory.bridge.near" then
    match get_metadata svc txn.r_receiver_account_id with
    | .error e => .error e
    | .ok metadata =>
        match parse_withdraw_from_bridge function_call_args with
        | none => .error "Invalid withdraw args"
        | some withdraw_args =>
            .ok (some { ft_amount_out := some (safe_divide_u128 withdraw_args.amount
                          metadata.decimals),
                        ft_currency_out := some metadata.symbol,
                        ft_amount_in := none, ft_currency_in := none,
                        from_account := txn.ara_receipt_predecessor_account_id,
                        to_account := txn.ara_receipt_predecessor_account_id })
  else .ok none

/-- The `near_deposit` arm of `get_ft_amounts`: an in leg carrying the
native deposit. -/
def classify_near_deposit (svc : FtService) (txn : Transaction) (txn_args : TaArgs) :
    Except String (Option FtAmounts) :=
  match get_metadata svc txn.r_receiver_account_id with
  | .error e => .error e
  | .ok metadata =>
      .ok (some { ft_amount_out := none, ft_currency_out := none,
                  ft_amount_in := some (get_near_transferred txn_args),
                  ft_currency_in := some metadata.symbol,
                  from_account := txn.ara_receipt_predecessor_account_id,
                  to_account := txn.ara_receipt_predecessor_account_id })

/-- The `near_withdraw` arm of `get_ft_amounts`: an out leg. -/
def classify_near_withdraw (svc : FtService) (txn : Transaction)
    (function_call_args : Json) : Except String (Option FtAmounts) :=
  match get_metadata svc txn.r_receiver_account_id with
  | .error e => .error e
  | .ok metadata =>
      match parse_withdraw_from_bridge function_call_args with
      | none => .error "Invalid withdraw args"
      | some withdraw_args =>
          .ok (some { ft_amount_out := some (safe_divide_u128 withdraw_args.amount
                        metadata.decimals),
                      ft_currency_out := some metadata.symbol,
                      ft_amount_in := none, ft_currency_in := none,
                      from_account := txn.ara_receipt_predecessor_account_id,
                      to_account := txn.ara_receipt_predecessor_account_id })

/-- The `mint` arm of `get_ft_amounts`: an in leg in the incoming direction,
nothing (an error is logged) otherwise. -/
def classify_mint (svc : FtService) (is_incoming : Bool) (txn : Transaction)
    (function_call_args : Json) : Except String (Option FtAmounts) :=
  match get_metadata svc txn.r_receiver_account_id with
  | .error e => .error e
  | .ok metadata =>
      match parse_rainbow_bridge_mint function_call_args with
      | none => .error "Invalid bridge mint args"
      | some bridge_mint_args =>
          if is_incoming then
            .ok (some { ft_amount_out := none, ft_currency_out := none,
                        ft_amount_in := some (safe_divide_u128 bridge_mint_args.amount
                          metadata.decimals),
                        ft_currency_in := some metadata.symbol,
                        from_account := txn.ara_receipt_predecessor_account_id,
                        to_account := bridge_mint_args.account_id })
          else .ok none

/-- The amount classifier (`TTA::get_ft_amounts`): maps
(direction, row, decoded args) to an optional movement, dispatching on the
decoded method name exactly as the source match does; the arms are the
`classify_` functions above, in source order. -/
def get_ft_amounts (svc : FtService) (is_incoming : Bool) (txn : Transaction)
    (txn_args : TaArgs) : Except String (Option FtAmounts) :=
  match (txn_args.method_name.map MethodName.fromString).getD .Unsupported with
  | .FtTransfer => classify_ft_transfer svc is_incoming txn (decode_transaction_args txn_args)
  | .FtTransferCall => classify_ft_transfer_call svc txn (decode_transaction_args txn_args)
  | .Withdraw => classify_withdraw svc txn (decode_transaction_args txn_args)
  | .NearDeposit => classify_near_deposit svc txn txn_args
  | .NearWithdraw => classify_near_withdraw svc txn (decode_transaction_args txn_args)
  | .Mint => classify_mint svc is_incoming txn (decode_transaction_args txn_args)
  | .Unsupported => .ok none

/-- Per-account user metadata map (`TxnsReportWithMetadata`), as the
association list account ↦ (transaction hash ↦ note). -/
def MetadataMap : Type := List (String × List (String × String))

/-- The movement tuple destructured from an optional classification
(`tta_impl.rs` lines 304-316): the five FT columns, defaulting `to_account`
to the receipt receiver when no movement was classified. -/
def movement_parts (txn : Transaction) (ft_amounts : Option FtAmounts) :
    Option ℚ × Option String × Option ℚ × Option String × String :=
  match ft_amounts with
  | some f => (f.ft_amount_out, f.ft_currency_out, f.ft_amount_in, f.ft_currency_in, f.to_account)
  | none => (none, none, none, none, txn.r_receiver_account_id)

/-- The balance block of the per-row closure (`tta_impl.rs` lines 324-363):
when balances are requested, an FT movement queries the token balance and
metadata, anything else queries the native balance.  `none` means the row
task failed (the source's `?` operators) and the row is discarded. -/
def compute_balances (svc : FtService) (include_balances : Bool) (for_account : String)
    (txn : Transaction)
    (parts : Option ℚ × Option String × Option ℚ × Option String × String) :
    Option (Option ℚ × Option String) :=
  if include_balances then
    if parts.2.2.1.isSome || parts.1.isSome then
      match svc.ft_balance txn.r_receiver_account_id for_account txn.b_block_height with
      | .error _ => none
      | .ok b =>
          match svc.ft_metadata txn.r_receiver_account_id with
          | .error _ => none
          | .ok md => some (some b, some md.symbol)
    else
      match svc.near_balance for_account txn.b_block_height with
      | .error _ => none
      | .ok (some near) => some (some near.1, some "NEAR")
      | .ok none => some (none, none)
  else some (none, none)

/-- The `ReportRow` literal built at the end of the per-row closure
(`tta_impl.rs` lines 372-392). -/
def build_report_row (txn_type : TransactionType) (for_account : String)
    (metadata : MetadataMap) (txn : Transaction) (txn_args : TaArgs)
    (parts : Option ℚ × Option String × Option ℚ × Option String × String)
    (bal : Option ℚ × Option String) : ReportRow :=
  { account_id := for_account
    date := get_transaction_date txn
    method_name := get_method_name txn txn_args
    block_timestamp := txn.b_block_timestamp
    from_account := txn.ara_receipt_predecessor_account_id
    block_height := txn.b_block_height
    args := decode_transaction_args txn_args
    transaction_hash := txn.t_transaction_hash
    amount_transferred := get_near_transferred txn_args *
      (if txn_type = TransactionType.Outgoing then -1 else 1)
    currency_transferred := "NEAR"
    ft_amount_out := parts.1
    ft_currency_out := parts.2.1
    ft_amount_in := parts.2.2.1
    ft_currency_in := parts.2.2.2.1
    to_account := parts.2.2.2.2
    amount_staked := 0
    onchain_balance := bal.1
    onchain_balance_token := bal.2
    metadata := (alist_get metadata for_account).bind
      (fun m => alist_get m txn.t_transaction_hash) }

/-- The per-row closure body of `handle_txns` (`tta_impl.rs` lines 278-393):
action-kind filter, gas-refund skip, classification, optional balance
queries, then the `ReportRow`.  `none` covers every way the row dies: the
kind filter, the gas-refund skip, a classification error, and a balance
error (the source's `?` operators fail the row task, whose `Err` or panic
makes `handle_txns` discard the row). -/
def handle_txn_row (svc : FtService) (txn_type : TransactionType) (for_account : String)
    (include_balances : Bool) (metadata : MetadataMap) (txn : Transaction) :
    Option ReportRow :=
  if txn.ara_action_kind ≠ "FUNCTION_CALL" ∧ txn.ara_action_kind ≠ "TRANSFER" then none
  else
    if get_near_transferred txn.ara_args < mkRat 1 2
        ∧ txn.ara_receipt_predecessor_account_id = "system" then none
    else
      match get_ft_amounts svc (decide (txn_type ≠ TransactionType.Outgoing)) txn
          txn.ara_args with
      | .error _ => none
      | .ok ft_amounts =>
          match compute_balances svc include_balances for_account txn
              (movement_parts txn ft_amounts) with
          | none => none
          | some bal =>
              some (build_report_row txn_type for_account metadata txn txn.ara_args
                (movement_parts txn ft_amounts) bal)

/-- One per-(account, query-class) task (`TTA::handle_txns`): stream the
class's rows for the wallet set and build a row for each survivor.  The
channel plus `join_all` machinery preserves stream order, so the task's
output is the ordered `filterMap` of the per-row closure. -/
def handle_txns (svc : FtService) (fetch : List String → TransactionType → List Transaction)
    (txn_type : TransactionType) (for_account : String) (accounts : List String)
    (include_balances : Bool) (metadata : MetadataMap) : List ReportRow :=
  (fetch accounts txn_type).filterMap
    (handle_txn_row svc txn_type for_account include_balances metadata)

/-- The zero-movement output filter (`assert_moves_token`). -/
def assert_moves_token (row : ReportRow) : Option ReportRow :=
  if row.amount_transferred = 0 ∧ row.ft_amount_out = none ∧ row.ft_amount_in = none
      ∧ row.amount_staked = 0 then none
  else some row

/-- The final sort comparator: `account_id` ascending, then `block_timestamp`
ascending (`report.sort_by` in `get_txns_report`). -/
def report_le (a b : ReportRow) : Bool :=
  decide (a.account_id < b.account_id)
    || (a.account_id == b.account_id && decide (a.block_timestamp ≤ b.block_timestamp))

/-- UTF-8 bytes of a character (the `as_bytes` view of a Rust string). -/
def utf8_bytes (c : Char) : List Nat :=
  let n := c.toNat
  if n < 128 then [n]
  else if n < 2048 then [192 ||| (n >>> 6), 128 ||| (n &&& 63)]
  else if n < 65536 then
    [224 ||| (n >>> 12), 128 ||| ((n >>> 6) &&& 63), 128 ||| (n &&& 63)]
  else
    [240 ||| (n >>> 18), 128 ||| ((n >>> 12) &&& 63),
     128 ||| ((n >>> 6) &&& 63), 128 ||| (n &&& 63)]

/-- UTF-8 bytes of a string. -/
def str_bytes : List Char → List Nat
  | [] => []
  | c :: cs => utf8_bytes c ++ str_bytes cs

/-- Word size modulus of SHA-256 arithmetic. -/
def m32 : Nat := 2 ^ 32

/-- Right rotation of a 32-bit word. -/
def rotr32 (x n : Nat) : Nat :=
  ((x >>> n) ||| (x <<< (32 - n))) % m32

/-- SHA-256 round constants. -/
def sha256_k : List Nat :=
  [1116352408, 1899447441, 3049323471, 3921009573, 961987163,
   1508970993, 2453635748, 2870763221, 3624381080, 310598401,
   607225278, 1426881987, 1925078388, 2162078206, 2614888103,
   3248222580, 3835390401, 4022224774, 264347078, 604807628,
   770255983, 1249150122, 1555081692, 1996064986, 2554220882,
   2821834349, 2952996808, 3210313671, 3336571891, 3584528711,
   113926993, 338241895, 666307205, 773529912, 1294757372,
   1396182291, 1695183700, 1986661051, 2177026350, 2456956037,
   2730485921, 2820302411, 3259730800, 3345764771, 3516065817,
   3600352804, 4094571909, 275423344, 430227734, 506948616,
   659060556, 883997877, 958139571, 1322822218, 1537002063,
   1747873779, 1955562222, 2024104815, 2227730452, 2361852424,
   2428436474, 2756734187, 3204031479, 3329325298]

/-- SHA-256 hash state: eight 32-bit words. -/
structure Sha256State where
  a : Nat
  b : Nat
  c : Nat
  d : Nat
  e : Nat
  f : Nat
  g : Nat
  h : Nat

/-- SHA-256 initial hash state. -/
def sha256_init : Sha256State :=
  ⟨1779033703, 3144134277, 1013904242, 2773480762,
   1359893119, 2600822924, 528734635, 1541459225⟩

/-- One SHA-256 compression round. -/
def sha256_round (k w : Nat) (s : Sha256State) : Sha256State :=
  let s1 := rotr32 s.e 6 ^^^ rotr32 s.e 11 ^^^ rotr32 s.e 25
  let ch := (s.e &&& s.f) ^^^ ((s.e ^^^ (m32 - 1)) &&& s.g)
  let t1 := (s.h + s1 + ch + k + w) % m32
  let s0 := rotr32 s.a 2 ^^^ rotr32 s.a 13 ^^^ rotr32 s.a 22
  let maj := (s.a &&& s.b) ^^^ (s.a &&& s.c) ^^^ (s.b &&& s.c)
  let t2 := (s0 + maj) % m32
  ⟨(t1 + t2) % m32, s.a, s.b, s.c, (s.d + t1) % m32, s.e, s.f, s.g⟩

/-- Next word of the SHA-256 message schedule, from the words so far. -/
def sha256_next_word (w : List Nat) : Nat :=
  let i := w.length
  let w15 := w.getD (i - 15) 0
  let w2 := w.getD (i - 2) 0
  let s0 := rotr32 w15 7 ^^^ rotr32 w15 18 ^^^ (w15 >>> 3)
  let s1 := rotr32 w2 17 ^^^ rotr32 w2 19 ^^^ (w2 >>> 10)
  (w.getD (i - 16) 0 + s0 + w.getD (i - 7) 0 + s1) % m32

/-- Extend the 16 chunk words by `n` schedule words. -/
def sha256_extend : Nat → List Nat → List Nat
  | 0, w => w
  | n + 1, w => sha256_extend n (w ++ [sha256_next_word w])

/-- Big-endian 32-bit words from bytes. -/
def bytes_to_words : List Nat → List Nat
  | b0 :: b1 :: b2 :: b3 :: rest =>
      (b0 * 2 ^ 24 + b1 * 2 ^ 16 + b2 * 2 ^ 8 + b3) :: bytes_to_words rest
  | _ => []

/-- Compress one 64-byte chunk into the hash state. -/
def sha256_compress (s : Sha256State) (chunk : List Nat) : Sha256State :=
  let w := sha256_extend 48 (bytes_to_words chunk)
  let t := (sha256_k.zip w).foldl (fun st kw => sha256_round kw.1 kw.2 st) s
  ⟨(s.a + t.a) % m32, (s.b + t.b) % m32, (s.c + t.c) % m32, (s.d + t.d) % m32,
   (s.e + t.e) % m32, (s.f + t.f) % m32, (s.g + t.g) % m32, (s.h + t.h) % m32⟩

/-- SHA-256 padding: a 0x80 byte, zeros to 56 mod 64, then the bit length
as eight big-endian bytes. -/
def sha256_pad (msg : List Nat) : List Nat :=
  let len := msg.length
  let zeros := (119 - len % 64) % 64
  let bits := len * 8
  msg ++ 128 :: List.replicate zeros 0 ++
    [(bits >>> 56) % 256, (bits >>> 48) % 256, (bits >>> 40) % 256, (bits >>> 32) % 256,
     (bits >>> 24) % 256, (bits >>> 16) % 256, (bits >>> 8) % 256, bits % 256]

/-- Split a padded message into 64-byte chunks (fueled, so it reduces). -/
def chunks64_fuel : Nat → List Nat → List (List Nat)
  | 0, _ => []
  | _, [] => []
  | fuel + 1, l => l.take 64 :: chunks64_fuel fuel (l.drop 64)

/-- Split a padded message into 64-byte chunks. -/
def chunks64 (l : List Nat) : List (List Nat) :=
  chunks64_fuel l.length l

/-- Big-endian bytes of one 32-bit word. -/
def word_bytes (x : Nat) : List Nat :=
  [x / 2 ^ 24 % 256, x / 2 ^ 16 % 256, x / 2 ^ 8 % 256, x % 256]

/-- Digest bytes of a final hash state. -/
def state_bytes (s : Sha256State) : List Nat :=
  word_bytes s.a ++ word_bytes s.b ++ word_bytes s.c ++ word_bytes s.d ++
  word_bytes s.e ++ word_bytes s.f ++ word_bytes s.g ++ word_bytes s.h

/-- The SHA-256 digest (32 bytes) of a byte message. -/
def sha256_bytes (msg : List Nat) : List Nat :=
  state_bytes ((chunks64 (sha256_pad msg)).foldl sha256_compress sha256_init)

/-- Lowercase hex digit characters. -/
def hex_digit (n : Nat) : Char :=
  "0123456789abcdef".data.getD n '0'

/-- Lowercase hex rendering of a byte list, two digits per byte (the
Rust side's `format` with lowercase hex over the digest). -/
def hex_chars : List Nat → List Char
  | [] => []
  | b :: rest => hex_digit (b / 16 % 16) :: hex_digit (b % 16) :: hex_chars rest

/-- Hex SHA-256 of a string (`sha256` in `tta/utils.rs`). -/
def sha256 (value : String) : String :=
  String.mk (hex_chars (sha256_bytes (str_bytes value.data)))

/-- The lockup deriver (`get_associated_lockup` in `tta/utils.rs`): first 40
hex characters of the digest, then ".lockup.", then the master account. -/
def get_associated_lockup (account_id : String) (master_account_id : String) : String :=
  String.mk ((sha256 account_id).data.take 40) ++ ".lockup." ++ master_account_id

/-- Modelled from the spec: the spec formula
`lockup_of(account) = hex(SHA256(account))[0:40] + ".lockup.near"`,
stated verbatim for comparison with `get_associated_lockup`. -/
def lockup_of (account : String) : String :=
  String.mk ((sha256 account).data.take 40) ++ ".lockup.near"

/-- Lowercase hex digit test. -/
def is_lower_hex (c : Char) : Bool :=
  c.isDigit || ('a' ≤ c && c ≤ 'f')

/-- The aggregation engine (`TTA::get_txns_report`): per account, derive the
wallet set (account plus lockup), run the three query-class tasks, filter
each task's rows through `assert_moves_token`, concatenate, and sort.
`fetch wallets class` stands for the rows the SQL layer streams for that
wallet set and query class. -/
def get_txns_report (svc : FtService) (accounts : List String) (include_balances : Bool)
    (metadata : MetadataMap) (fetch : List String → TransactionType → List Transaction) :
    List ReportRow :=
  let partial_reports := accounts.flatMap (fun acc =>
    let wallets_for_account := [acc, get_associated_lockup acc "near"]
    [handle_txns svc fetch TransactionType.Incoming acc wallets_for_account
       include_balances metadata,
     handle_txns svc fetch TransactionType.FtIncoming acc wallets_for_account
       include_balances metadata,
     handle_txns svc fetch TransactionType.Outgoing acc wallets_for_account
       include_balances metadata])
  let report := partial_reports.flatMap (fun p => p.filterMap assert_moves_token)
  report.mergeSort report_le

/-- Outcome of one streaming query's producer loop (`get_outgoing_txns`,
`get_incoming_txns`, `get_ft_incoming_txns` share it verbatim): how many
rows were pulled from the database cursor, which rows were delivered into
the channel, and how many sends failed. -/
structure StreamOutcome where
  reads : Nat
  sent : List Transaction
  send_failures : Nat

/-- The producer loop of the three streaming queries
(`sql_queries.rs`): `while let Some(txn) = stream.next().await` over the
cursor; an `Ok` row is sent into the channel and a send error is only
logged, an `Err` fetch is only logged.  The channel consumer is modelled by
`ok_sends`, the number of sends that succeed before the consumer goes away
(a closed channel fails every send from then on). -/
def stream_rows_loop (ok_sends : Nat) :
    List (Except String Transaction) → StreamOutcome
  | [] => ⟨0, [], 0⟩
  | .error _ :: rest =>
      let o := stream_rows_loop ok_sends rest
      ⟨o.reads + 1, o.sent, o.send_failures⟩
  | .ok t :: rest =>
      match ok_sends with
      | 0 =>
          let o := stream_rows_loop 0 rest
          ⟨o.reads + 1, o.sent, o.send_failures + 1⟩
      | n + 1 =>
          let o := stream_rows_loop n rest
          ⟨o.reads + 1, t :: o.sent, o.send_failures⟩

/-- Fetched rows that are `Ok`. -/
def ok_rows (rows : List (Except String Transaction)) : List Transaction :=
  rows.filterMap (fun r => match r with | .ok t => some t | .error _ => none)

/-- Modelled from the spec: the Row Builder formula for the native amount,
"`near_transferred` returns `deposit / 10^24` if at least 10^-4 NEAR else 0",
stated verbatim for comparison with `get_near_transferred`. -/
def spec_near_transferred (deposit : Option Nat) : ℚ :=
  match deposit with
  | none => 0
  | some d => if 1 / 10000 ≤ (d : ℚ) / (10 ^ 24 : ℚ) then (d : ℚ) / (10 ^ 24 : ℚ) else 0

/-- Concrete token metadata fixture: a six-decimal token. -/
def md_usdc : FtMetadata := { symbol := "USDC", decimals := 6 }

/-- Concrete service fixture whose calls all succeed. -/
def svc_ok : FtService :=
  { ft_metadata := fun _ => .ok md_usdc
    ft_balance := fun _ _ _ => .ok 5
    near_balance := fun _ _ => .ok (some (1, 0)) }

/-- Concrete service fixture whose metadata lookups succeed but whose
balance queries fail. -/
def svc_bad : FtService :=
  { ft_metadata := fun _ => .ok md_usdc
    ft_balance := fun _ _ _ => .error "rpc error"
    near_balance := fun _ _ => .error "rpc error" }

/-- Concrete row: an incoming `ft_transfer` of amount 0 with no deposit. -/
def txn_zero : Transaction :=
  { t_transaction_hash := "tx-zero"
    r_receiver_account_id := "usdc.token"
    ara_action_kind := "FUNCTION_CALL"
    ara_args :=
      { method_name := some "ft_transfer"
        args_base64 := some (Json.obj
          [("receiver_id", Json.str "alice.near"), ("amount", Json.str "0")]) }
    ara_receipt_predecessor_account_id := "bob.near"
    b_block_height := 90000000
    b_block_timestamp := 1640995200000000000 }

/-- Concrete transaction source: `txn_zero` on the Incoming class only. -/
def fetch_zero : List String → TransactionType → List Transaction :=
  fun _ t => if t = TransactionType.Incoming then [txn_zero] else []

/-- The report row `txn_zero` builds: native amount zero, FT-in present
but zero. -/
def row_zero : ReportRow :=
  { account_id := "alice.near"
    date := get_transaction_date txn_zero
    method_name := "ft_transfer"
    block_timestamp := 1640995200000000000
    from_account := "bob.near"
    block_height := 90000000
    args := Json.obj [("receiver_id", Json.str "alice.near"), ("amount", Json.str "0")]
    transaction_hash := "tx-zero"
    amount_transferred := get_near_transferred txn_zero.ara_args * 1
    currency_transferred := "NEAR"
    ft_amount_out := none
    ft_currency_out := none
    ft_amount_in := some (safe_divide_u128 0 6)
    ft_currency_in := some "USDC"
    to_account := "alice.near"
    amount_staked := 0 }

/-- Concrete row: a `swap` function call with the spec's argument shape. -/
def txn_swap : Transaction :=
  { t_transaction_hash := "tx-swap"
    r_receiver_account_id := "ref.finance"
    ara_action_kind := "FUNCTION_CALL"
    ara_args :=
      { method_name := some "swap"
        args_base64 := some (Json.obj
          [("token_in", Json.str "usdc.token"), ("amount_in", Json.str "5000000"),
           ("token_out", Json.str "wnear.token"),
           ("min_amount_out", Json.str "4000000000000000000")]) }
    ara_receipt_predecessor_account_id := "alice.near"
    b_block_height := 90000010
    b_block_timestamp := 1640995400000000000 }

/-- Concrete row: an `ft_transfer_call` of 1000000 six-decimal units. -/
def txn_tcall : Transaction :=
  { t_transaction_hash := "tx-tcall"
    r_receiver_account_id := "usdc.token"
    ara_action_kind := "FUNCTION_CALL"
    ara_args :=
      { method_name := some "ft_transfer_call"
        args_base64 := some (Json.obj
          [("receiver_id", Json.str "ref.finance"), ("amount", Json.str "1000000"),
           ("msg", Json.str "swap-msg")]) }
    ara_receipt_predecessor_account_id := "alice.near"
    b_block_height := 90000020
    b_block_timestamp := 1640995500000000000 }

/-- The parsed arguments of `txn_tcall`. -/
def a_tcall : FtTransferCall :=
  { receiver_id := "ref.finance", amount := 1000000, msg := "swap-msg" }

/-- The movement `txn_tcall` classifies to (in either direction). -/
def mv_tcall : FtAmounts :=
  { ft_amount_out := some (safe_divide_u128 1000000 6)
    ft_currency_out := some "USDC"
    ft_amount_in := none
    ft_currency_in := none
    from_account := "alice.near"
    to_account := "ref.finance" }

/-- Concrete row: an incoming `ft_transfer` of 1000000 six-decimal units. -/
def txn_one : Transaction :=
  { t_transaction_hash := "tx-one"
    r_receiver_account_id := "usdc.token"
    ara_action_kind := "FUNCTION_CALL"
    ara_args :=
      { method_name := some "ft_transfer"
        args_base64 := some (Json.obj
          [("receiver_id", Json.str "alice.near"), ("amount", Json.str "1000000")]) }
    ara_receipt_predecessor_account_id := "bob.near"
    b_block_height := 90000030
    b_block_timestamp := 1640995600000000000 }

/-- The movement `txn_one` classifies to in the incoming direction. -/
def mv_one : FtAmounts :=
  { ft_amount_out := none
    ft_currency_out := none
    ft_amount_in := some (safe_divide_u128 1000000 6)
    ft_currency_in := some "USDC"
    from_account := "bob.near"
    to_account := "alice.near" }

/-- Concrete row: a plain outgoing 1 NEAR transfer. -/
def txn_out : Transaction :=
  { t_transaction_hash := "tx-out"
    r_receiver_account_id := "bob.near"
    ara_action_kind := "TRANSFER"
    ara_args := { deposit := some (10 ^ 24) }
    ara_receipt_predecessor_account_id := "alice.near"
    b_block_height := 90000040
    b_block_timestamp := 1640995700000000000 }

/-- The report row `txn_out` builds on the Outgoing class. -/
def row_out : ReportRow :=
  { account_id := "alice.near"
    date := get_transaction_date txn_out
    method_name := "TRANSFER"
    block_timestamp := 1640995700000000000
    from_account := "alice.near"
    block_height := 90000040
    args := Json.obj []
    transaction_hash := "tx-out"
    amount_transferred := get_near_transferred txn_out.ara_args * -1
    currency_transferred := "NEAR"
    ft_amount_out := none
    ft_currency_out := none
    ft_amount_in := none
    ft_currency_in := none
    to_account := "bob.near"
    amount_staked := 0 }

theorem assert_moves_token_some {y r : ReportRow} (h : assert_moves_token y = some r) :
    y = r ∧ ¬(r.amount_transferred = 0 ∧ r.ft_amount_out = none ∧ r.ft_amount_in = none
      ∧ r.amount_staked = 0) := by
  unfold assert_moves_token at h
  split at h
  · exact absurd h (by simp)
  · cases h
    exact ⟨rfl, by assumption⟩

theorem handle_txn_row_some {svc : FtService} {txn_type : TransactionType}
    {for_account : String} {include_balances : Bool} {metadata : MetadataMap}
    {txn : Transaction} {r : ReportRow}
    (h : handle_txn_row svc txn_type for_account include_balances metadata txn = some r) :
    r.from_account = txn.ara_receipt_predecessor_account_id ∧
    r.amount_transferred = get_near_transferred txn.ara_args *
      (if txn_type = TransactionType.Outgoing then -1 else 1) ∧
    r.amount_staked = 0 ∧
    ¬(get_near_transferred txn.ara_args < mkRat 1 2
      ∧ txn.ara_receipt_predecessor_account_id = "system") := by
  unfold handle_txn_row at h
  split at h
  · exact absurd h (by simp)
  · split at h
    · exact absurd h (by simp)
    · split at h
      · exact absurd h (by simp)
      · split at h
        · exact absurd h (by simp)
        · cases h
          exact ⟨rfl, rfl, rfl, by assumption⟩

theorem get_near_transferred_nonneg (txn_args : TaArgs) :
    0 ≤ get_near_transferred txn_args := by
  unfold get_near_transferred
  cases txn_args.deposit with
  | none => simp
  | some d =>
      simp only
      split
      · positivity
      · simp

theorem mkRat_half : (mkRat 1 2 : ℚ) = 1 / 2 := by
  rw [Rat.mkRat_eq_div]
  norm_num

theorem mkRat_threshold : (mkRat 1 10000 : ℚ) = 1 / 10000 := by
  rw [Rat.mkRat_eq_div]
  norm_num

theorem mem_get_txns_report {svc : FtService} {accounts : List String}
    {include_balances : Bool} {metadata : MetadataMap}
    {fetch : List String → TransactionType → List Transaction} {r : ReportRow}
    (h : r ∈ get_txns_report svc accounts include_balances metadata fetch) :
    (¬(r.amount_transferred = 0 ∧ r.ft_amount_out = none ∧ r.ft_amount_in = none
      ∧ r.amount_staked = 0)) ∧
    ∃ txn_type for_account txn,
      handle_txn_row svc txn_type for_account include_balances metadata txn = some r := by
  unfold get_txns_report at h
  rw [List.mem_mergeSort] at h
  rw [List.mem_flatMap] at h
  obtain ⟨p, hp, hrp⟩ := h
  rw [List.mem_flatMap] at hp
  obtain ⟨acc, -, hacc⟩ := hp
  rw [List.mem_filterMap] at hrp
  obtain ⟨y, hyp, hy⟩ := hrp
  obtain ⟨rfl, hnz⟩ := assert_moves_token_some hy
  refine ⟨hnz, ?_⟩
  simp only [List.mem_cons, List.not_mem_nil, or_false] at hacc
  rcases hacc with hacc | hacc | hacc <;>
    · subst hacc
      unfold handle_txns at hyp
      rw [List.mem_filterMap] at hyp
      obtain ⟨txn, -, htxn⟩ := hyp
      exact ⟨_, acc, txn, htxn⟩

/-- Each classifier arm emits at most one FT leg; first the `ft_transfer`
arm. -/
theorem classify_ft_transfer_one_leg {svc : FtService} {is_incoming : Bool}
    {txn : Transaction} {j : Json} {m : FtAmounts}
    (h : classify_ft_transfer svc is_incoming txn j = .ok (some m)) :
    m.ft_amount_out = none ∨ m.ft_amount_in = none := by
  unfold classify_ft_transfer at h
  repeat' split at h
  all_goals simp_all
  all_goals (cases h; simp)

/-- The `ft_transfer_call` arm emits at most one FT leg. -/
theorem classify_ft_transfer_call_one_leg {svc : FtService}
    {txn : Transaction} {j : Json} {m : FtAmounts}
    (h : classify_ft_transfer_call svc txn j = .ok (some m)) :
    m.ft_amount_out = none ∨ m.ft_amount_in = none := by
  unfold classify_ft_transfer_call at h
  repeat' split at h
  all_goals simp_all
  all_goals (cases h; simp)

/-- The `withdraw` arm emits at most one FT leg. -/
theorem classify_withdraw_one_leg {svc : FtService}
    {txn : Transaction} {j : Json} {m : FtAmounts}
    (h : classify_withdraw svc txn j = .ok (some m)) :
    m.ft_amount_out = none ∨ m.ft_amount_in = none := by
  unfold classify_withdraw at h
  repeat' split at h
  all_goals simp_all
  all_goals (cases h; simp)

/-- The `near_deposit` arm emits at most one FT leg. -/
theorem classify_near_deposit_one_leg {svc : FtService}
    {txn : Transaction} {args : TaArgs} {m : FtAmounts}
    (h : classify_near_deposit svc txn args = .ok (some m)) :
    m.ft_amount_out = none ∨ m.ft_amount_in = none := by
  unfold classify_near_deposit at h
  repeat' split at h
  all_goals simp_all
  all_goals (cases h; simp)

/-- The `near_withdraw` arm emits at most one FT leg. -/
theorem classify_near_withdraw_one_leg {svc : FtService}
    {txn : Transaction} {j : Json} {m : FtAmounts}
    (h : classify_near_withdraw svc txn j = .ok (some m)) :
    m.ft_amount_out = none ∨ m.ft_amount_in = none := by
  unfold classify_near_withdraw at h
  repeat' split at h
  all_goals simp_all
  all_goals (cases h; simp)

/-- The `mint` arm emits at most one FT leg. -/
theorem classify_mint_one_leg {svc : FtService} {is_incoming : Bool}
    {txn : Transaction} {j : Json} {m : FtAmounts}
    (h : classify_mint svc is_incoming txn j = .ok (some m)) :
    m.ft_amount_out = none ∨ m.ft_amount_in = none := by
  unfold classify_mint at h
  repeat' split at h
  all_goals simp_all
  all_goals (cases h; simp)

/-- C1: amended claim.  The classifier recognizes six method names and
"swap" is not among them: a row whose decoded method name is "swap" maps to
the `Unsupported` sink and `get_ft_amounts` yields no movement; moreover no
movement `get_ft_amounts` ever returns carries both an FT-out and an FT-in
leg on the same row. -/
theorem C1_swap_unsupported :
    (∀ (svc : FtService) (is_incoming : Bool) (txn : Transaction) (txn_args : TaArgs),
      txn_args.method_name = some "swap" →
      get_ft_amounts svc is_incoming txn txn_args = .ok none) ∧
    (∀ (svc : FtService) (is_incoming : Bool) (txn : Transaction) (txn_args : TaArgs)
      (m : FtAmounts),
      get_ft_amounts svc is_incoming txn txn_args = .ok (some m) →
      ¬(m.ft_amount_out.isSome = true ∧ m.ft_amount_in.isSome = true)) := by
  constructor
  · intro svc is_incoming txn txn_args h
    unfold get_ft_amounts
    rw [h]
    rfl
  · intro svc is_incoming txn txn_args m h hboth
    obtain ⟨ho, hi⟩ := hboth
    unfold get_ft_amounts at h
    have hleg : m.ft_amount_out = none ∨ m.ft_amount_in = none := by
      generalize (Option.map MethodName.fromString txn_args.method_name).getD
        MethodName.Unsupported = mn at h
      cases mn
      · exact classify_ft_transfer_one_leg h
      · exact classify_ft_transfer_call_one_leg h
      · exact classify_withdraw_one_leg h
      · exact classify_near_deposit_one_leg h
      · exact classify_near_withdraw_one_leg h
      · exact classify_mint_one_leg h
      · simp at h
    rcases hleg with hleg | hleg <;> simp_all

/-- C1: witness, the amended theorem applied to a concrete swap row. -/
theorem C1_witness :
    get_ft_amounts svc_ok true txn_swap txn_swap.ara_args = .ok none :=
  C1_swap_unsupported.1 svc_ok true txn_swap txn_swap.ara_args rfl

/-- C1: counterexample to the claim as stated.  On a concrete swap row the
classifier returns no movement at all, in either direction, instead of the
claimed dual-leg movement; "swap" maps to the `Unsupported` sink. -/
theorem C1_counterexample :
    get_ft_amounts svc_ok true txn_swap txn_swap.ara_args = .ok none ∧
    get_ft_amounts svc_ok false txn_swap txn_swap.ara_args = .ok none ∧
    MethodName.fromString "swap" = MethodName.Unsupported :=
  ⟨rfl, rfl, rfl⟩

/-- C3: amended claim.  A row whose decoded method name is
"ft_transfer_call" yields an FT-out leg of the scaled amount with the
token's symbol in BOTH directions: the classification is independent of the
direction flag, and no FT-in leg is produced. -/
theorem C3_ft_transfer_call_always_out :
    ∀ (svc : FtService) (is_incoming : Bool) (txn : Transaction) (txn_args : TaArgs)
      (md : FtMetadata) (a : FtTransferCall),
      txn_args.method_name = some "ft_transfer_call" →
      get_metadata svc txn.r_receiver_account_id = .ok md →
      parse_ft_transfer_call (decode_transaction_args txn_args) = some a →
      get_ft_amounts svc is_incoming txn txn_args = .ok (some
        { ft_amount_out := some (safe_divide_u128 a.amount md.decimals)
          ft_currency_out := some md.symbol
          ft_amount_in := none
          ft_currency_in := none
          from_account := txn.ara_receipt_predecessor_account_id
          to_account := a.receiver_id }) := by
  intro svc is_incoming txn txn_args md a hm hmd hp
  unfold get_ft_amounts
  rw [hm]
  show classify_ft_transfer_call svc txn (decode_transaction_args txn_args) = _
  unfold classify_ft_transfer_call
  rw [hmd, hp]

/-- C3: witness, the amended theorem applied to a concrete outgoing
`ft_transfer_call` row. -/
theorem C3_witness :
    get_ft_amounts svc_ok false txn_tcall txn_tcall.ara_args = .ok (some
      { ft_amount_out := some (safe_divide_u128 a_tcall.amount md_usdc.decimals)
        ft_currency_out := some md_usdc.symbol
        ft_amount_in := none
        ft_currency_in := none
        from_account := txn_tcall.ara_receipt_predecessor_account_id
        to_account := a_tcall.receiver_id }) :=
  C3_ft_transfer_call_always_out svc_ok false txn_tcall txn_tcall.ara_args md_usdc a_tcall
    rfl rfl rfl

/-- C3: counterexample to the claim as stated.  A concrete
`ft_transfer_call` row classified in the INCOMING direction is not skipped:
it produces a movement with an FT-out leg of 1 token. -/
theorem C3_counterexample :
    get_ft_amounts svc_ok true txn_tcall txn_tcall.ara_args = .ok (some mv_tcall) ∧
    mv_tcall.ft_amount_out = some 1 := by
  constructor
  · rfl
  · show some (safe_divide_u128 1000000 6) = some 1
    norm_num [safe_divide_u128]

/-- C4: amended claim.  When `include_balances` is set and the balance
query for a row fails, the whole row is dropped, not kept with empty
balance fields: an `ft_balance` error on a row with an FT movement, or a
`near_balance` error on a row without one, makes the per-row closure yield
no report row (the source's question-mark operators fail the row task). -/
theorem C4_balance_error_drops_row :
    (∀ (svc : FtService) (txn_type : TransactionType) (for_account : String)
      (metadata : MetadataMap) (txn : Transaction) (f : FtAmounts) (err : String),
      get_ft_amounts svc (decide (txn_type ≠ TransactionType.Outgoing)) txn txn.ara_args
        = .ok (some f) →
      (f.ft_amount_in.isSome || f.ft_amount_out.isSome) = true →
      svc.ft_balance txn.r_receiver_account_id for_account txn.b_block_height = .error err →
      handle_txn_row svc txn_type for_account true metadata txn = none) ∧
    (∀ (svc : FtService) (txn_type : TransactionType) (for_account : String)
      (metadata : MetadataMap) (txn : Transaction) (err : String),
      get_ft_amounts svc (decide (txn_type ≠ TransactionType.Outgoing)) txn txn.ara_args
        = .ok none →
      svc.near_balance for_account txn.b_block_height = .error err →
      handle_txn_row svc txn_type for_account true metadata txn = none) := by
  constructor
  · intro svc txn_type for_account metadata txn f err hcls hleg hbal
    have hb : compute_balances svc true for_account txn (movement_parts txn (some f))
        = none := by
      unfold compute_balances movement_parts
      simp [hleg, hbal]
    unfold handle_txn_row
    split
    · rfl
    · split
      · rfl
      · rw [hcls]
        simp [hb]
  · intro svc txn_type for_account metadata txn err hcls hbal
    have hb : compute_balances svc true for_account txn (movement_parts txn none)
        = none := by
      unfold compute_balances movement_parts
      simp [hbal]
    unfold handle_txn_row
    split
    · rfl
    · split
      · rfl
      · rw [hcls]
        simp [hb]

/-- C4: witness, the amended theorem applied to a concrete FT-transfer row
against a service whose balance queries fail. -/
theorem C4_witness :
    handle_txn_row svc_bad TransactionType.Incoming "alice.near" true [] txn_one = none :=
  C4_balance_error_drops_row.1 svc_bad TransactionType.Incoming "alice.near" [] txn_one
    mv_one "rpc error" rfl rfl rfl

/-- C4: counterexample to the claim as stated.  On a concrete FT-transfer
row, turning balances on with a failing balance service DROPS the row
(`none`), while the same row without balances is emitted — so a balance
failure does cause the row itself to be dropped. -/
theorem C4_counterexample :
    handle_txn_row svc_bad TransactionType.Incoming "alice.near" true [] txn_one = none ∧
    (handle_txn_row svc_bad TransactionType.Incoming "alice.near" false [] txn_one).isSome
      = true :=
  ⟨rfl, rfl⟩

/-- C5: amended claim.  The producer loop never stops early: a channel-send
failure is logged and skipped exactly like a per-row fetch failure, the
loop reads every row the cursor yields, and the rows delivered are the
fetched `Ok` rows up to the moment the consumer went away. -/
theorem C5_stream_drains_cursor :
    ∀ (ok_sends : Nat) (rows : List (Except String Transaction)),
      (stream_rows_loop ok_sends rows).reads = rows.length ∧
      (stream_rows_loop ok_sends rows).sent = (ok_rows rows).take ok_sends := by
  intro ok_sends rows
  induction rows generalizing ok_sends with
  | nil => simp [stream_rows_loop, ok_rows]
  | cons head tail ih =>
      cases head with
      | error e =>
          simp [stream_rows_loop, ok_rows, List.filterMap_cons, (ih ok_sends).1,
            (ih ok_sends).2]
      | ok t =>
          cases ok_sends with
          | zero =>
              simp [stream_rows_loop, ok_rows, List.filterMap_cons, (ih 0).1, (ih 0).2]
          | succ n =>
              simp [stream_rows_loop, ok_rows, List.filterMap_cons, (ih n).1, (ih n).2]

/-- C5: counterexample to the claim as stated.  With the consumer gone from
the start, the send of the first row fails, yet the loop still reads the
second row from the cursor (both send failures are counted), so a send
error does not terminate the stream. -/
theorem C5_counterexample :
    stream_rows_loop 0 [.ok txn_zero, .ok txn_one] =
      { reads := 2, sent := [], send_failures := 2 } := rfl

/-- C2: counterexample to the claim as stated.  A concrete pipeline input
whose final report is exactly one row in which all four of
`amount_transferred`, `ft_amount_in`, `ft_amount_out`, `amount_staked` are
zero-valued: the FT-in leg is present but zero, so the filter keeps it. -/
theorem C2_counterexample :
    get_txns_report svc_ok ["alice.near"] false [] fetch_zero = [row_zero] ∧
    row_zero.amount_transferred = 0 ∧
    row_zero.ft_amount_in = some 0 ∧
    row_zero.ft_amount_out = none ∧
    row_zero.amount_staked = 0 := by
  refine ⟨?_, ?_, ?_, rfl, rfl⟩
  · have hrow : handle_txns svc_ok fetch_zero TransactionType.Incoming "alice.near"
        ["alice.near", get_associated_lockup "alice.near" "near"] false [] = [row_zero] := rfl
    have hro : handle_txns svc_ok fetch_zero TransactionType.FtIncoming "alice.near"
        ["alice.near", get_associated_lockup "alice.near" "near"] false [] = [] := rfl
    have hrt : handle_txns svc_ok fetch_zero TransactionType.Outgoing "alice.near"
        ["alice.near", get_associated_lockup "alice.near" "near"] false [] = [] := rfl
    have hma : assert_moves_token row_zero = some row_zero := by
      simp [assert_moves_token, row_zero]
    unfold get_txns_report
    simp only [List.flatMap_cons, List.flatMap_nil, List.append_nil, List.nil_append,
      hrow, hro, hrt, List.filterMap_cons, List.filterMap_nil, hma, List.mergeSort_singleton]
  · show get_near_transferred txn_zero.ara_args * 1 = 0
    simp [get_near_transferred, txn_zero]
  · show some (safe_divide_u128 0 6) = some 0
    norm_num [safe_divide_u128]

/-- C2: amended claim.  A row is removed exactly when `amount_transferred`
is zero, both FT amounts are ABSENT, and `amount_staked` is zero: every row
of the final report has a non-zero native amount, a present FT amount
(possibly zero-valued), or a non-zero staked amount. -/
theorem C2_zero_rows_filtered :
    ∀ (svc : FtService) (accounts : List String) (include_balances : Bool)
      (metadata : MetadataMap) (fetch : List String → TransactionType → List Transaction),
      (get_txns_report svc accounts include_balances metadata fetch).all
        (fun r => !(decide (r.amount_transferred = 0) && r.ft_amount_out.isNone
          && r.ft_amount_in.isNone && decide (r.amount_staked = 0))) = true := by
  intro svc accounts include_balances metadata fetch
  simp only [List.all_eq_true]
  intro r hr
  have hnz := (mem_get_txns_report hr).1
  by_contra hcon
  rw [Bool.not_eq_true, Bool.not_eq_false'] at hcon
  simp only [Bool.and_eq_true, decide_eq_true_eq, Option.isNone_iff_eq_none] at hcon
  tauto

/-- C6: every row of the final report whose `from_account` is "system"
has an absolute native amount of at least one half NEAR — sub-half-NEAR
system rows (gas refunds) never appear in the output. -/
theorem C6_gas_refund_filter :
    ∀ (svc : FtService) (accounts : List String) (include_balances : Bool)
      (metadata : MetadataMap) (fetch : List String → TransactionType → List Transaction),
      (get_txns_report svc accounts include_balances metadata fetch).all
        (fun r => !(decide (r.from_account = "system"))
          || decide ((1 : ℚ) / 2 ≤ |r.amount_transferred|)) = true := by
  intro svc accounts include_balances metadata fetch
  simp only [List.all_eq_true]
  intro r hr
  obtain ⟨-, txn_type, for_account, txn, hrow⟩ := mem_get_txns_report hr
  obtain ⟨hfrom, hamt, -, hguard⟩ := handle_txn_row_some hrow
  simp only [Bool.or_eq_true, Bool.not_eq_eq_eq_not, Bool.not_true, decide_eq_false_iff_not,
    decide_eq_true_eq]
  by_cases hsys : r.from_account = "system"
  · right
    have hpred : txn.ara_receipt_predecessor_account_id = "system" := hfrom ▸ hsys
    have hge : mkRat 1 2 ≤ get_near_transferred txn.ara_args := by
      by_contra hlt
      push_neg at hlt
      exact hguard ⟨hlt, hpred⟩
    have hnn := get_near_transferred_nonneg txn.ara_args
    rw [hamt]
    rw [mkRat_half] at hge
    split
    · rw [abs_mul]
      simpa [abs_of_nonneg hnn] using hge
    · rw [abs_mul]
      simpa [abs_of_nonneg hnn] using hge
  · left
    simpa using hsys
/-- The source's split `quotient + remainder/divisor` form of the native
amount agrees with the spec's `deposit / 10^24` formula. -/
theorem get_near_transferred_eq_spec (args : TaArgs) :
    get_near_transferred args = spec_near_transferred args.deposit := by
  unfold get_near_transferred spec_near_transferred
  cases args.deposit with
  | none => rfl
  | some d =>
      simp only
      have hdiv : ((d / ONE_NEAR : ℕ) : ℚ) + ((d % ONE_NEAR : ℕ) : ℚ) / ((ONE_NEAR : ℕ) : ℚ)
          = (d : ℚ) / (10 ^ 24 : ℚ) := by
        have h0 : ((ONE_NEAR : ℕ) : ℚ) ≠ 0 := by
          unfold ONE_NEAR
          norm_num
        field_simp
        have hmod := Nat.div_add_mod d ONE_NEAR
        have : ((ONE_NEAR * (d / ONE_NEAR) + d % ONE_NEAR : ℕ) : ℚ) = (d : ℚ) := by
          exact_mod_cast congrArg (Nat.cast : ℕ → ℚ) hmod
        push_cast at this
        unfold ONE_NEAR at this ⊢
        push_cast
        linarith
      rw [hdiv, mkRat_threshold]

/-- C7: for every emitted row, `amount_transferred` is `near_transferred`
times `-1` on the Outgoing class and `+1` otherwise, where
`near_transferred` agrees with the spec formula (deposit over `10^24`,
zeroed under the `10^-4` threshold, zero when absent); consequently
outgoing rows carry a non-positive amount and non-outgoing rows a
non-negative one. -/
theorem C7_amount_sign :
    ∀ (svc : FtService) (txn_type : TransactionType) (for_account : String)
      (include_balances : Bool) (metadata : MetadataMap) (txn : Transaction) (r : ReportRow),
      handle_txn_row svc txn_type for_account include_balances metadata txn = some r →
      r.amount_transferred = get_near_transferred txn.ara_args *
        (if txn_type = TransactionType.Outgoing then -1 else 1) ∧
      (∀ args : TaArgs, get_near_transferred args = spec_near_transferred args.deposit) ∧
      (txn_type = TransactionType.Outgoing → r.amount_transferred ≤ 0) ∧
      (txn_type ≠ TransactionType.Outgoing → 0 ≤ r.amount_transferred) := by
  intro svc txn_type for_account include_balances metadata txn r h
  obtain ⟨-, hamt, -, -⟩ := handle_txn_row_some h
  have hnn := get_near_transferred_nonneg txn.ara_args
  refine ⟨hamt, get_near_transferred_eq_spec, ?_, ?_⟩
  · intro ht
    rw [hamt, if_pos ht]
    nlinarith
  · intro ht
    rw [hamt, if_neg ht]
    nlinarith

/-- C7: witness, the theorem applied to a concrete incoming row. -/
theorem C7_witness : (0 : ℚ) ≤ row_zero.amount_transferred :=
  (C7_amount_sign svc_ok TransactionType.Incoming "alice.near" false [] txn_zero row_zero
    rfl).2.2.2 (by simp)
/-- C10: every row the engine builds has `amount_staked = 0`, so the
output filter keeps a built row exactly when its native amount is non-zero
or an FT amount is present — the staked disjunct never decides survival. -/
theorem C10_staked_always_zero :
    ∀ (svc : FtService) (txn_type : TransactionType) (for_account : String)
      (include_balances : Bool) (metadata : MetadataMap) (txn : Transaction) (r : ReportRow),
      handle_txn_row svc txn_type for_account include_balances metadata txn = some r →
      r.amount_staked = 0 ∧
      (assert_moves_token r = some r ↔
        (r.amount_transferred ≠ 0 ∨ r.ft_amount_in.isSome = true
          ∨ r.ft_amount_out.isSome = true)) := by
  intro svc txn_type for_account include_balances metadata txn r h
  obtain ⟨-, -, hst, -⟩ := handle_txn_row_some h
  refine ⟨hst, ?_⟩
  unfold assert_moves_token
  constructor
  · intro hsome
    split at hsome
    · exact absurd hsome (by simp)
    · rename_i hcond
      push_neg at hcond
      by_cases h1 : r.amount_transferred = 0
      · by_cases h2 : r.ft_amount_out = none
        · have h3 := hcond h1 h2
          by_cases h4 : r.ft_amount_in = none
          · exact absurd hst (h3 h4)
          · exact Or.inr (Or.inl (Option.isSome_iff_ne_none.mpr h4))
        · exact Or.inr (Or.inr (Option.isSome_iff_ne_none.mpr h2))
      · exact Or.inl h1
  · intro hor
    split
    · rename_i hcond
      rcases hor with h1 | h1 | h1
      · exact absurd hcond.1 h1
      · rw [Option.isSome_iff_ne_none] at h1
        exact absurd hcond.2.2.1 h1
      · rw [Option.isSome_iff_ne_none] at h1
        exact absurd hcond.2.1 h1
    · rfl

/-- C10: witness, the theorem applied to a concrete incoming row. -/
theorem C10_witness : row_zero.amount_staked = 0 :=
  (C10_staked_always_zero svc_ok TransactionType.Incoming "alice.near" false [] txn_zero
    row_zero rfl).1

/-- The report comparator is transitive. -/
theorem report_le_trans : ∀ a b c : ReportRow,
    report_le a b → report_le b c → report_le a c := by
  intro a b c hab hbc
  simp only [report_le, Bool.or_eq_true, Bool.and_eq_true, decide_eq_true_eq,
    beq_iff_eq] at hab hbc ⊢
  rcases hab with h1 | ⟨h1, h2⟩ <;> rcases hbc with h3 | ⟨h3, h4⟩
  · exact Or.inl (lt_trans h1 h3)
  · exact Or.inl (lt_of_lt_of_eq h1 h3)
  · exact Or.inl (lt_of_eq_of_lt h1 h3)
  · exact Or.inr ⟨h1.trans h3, le_trans h2 h4⟩

/-- The report comparator is total. -/
theorem report_le_total : ∀ a b : ReportRow, report_le a b || report_le b a := by
  intro a b
  simp only [report_le, Bool.or_eq_true, Bool.and_eq_true, decide_eq_true_eq, beq_iff_eq]
  rcases lt_trichotomy a.account_id b.account_id with h | h | h
  · exact Or.inl (Or.inl h)
  · rcases Nat.le_total a.block_timestamp b.block_timestamp with ht | ht
    · exact Or.inl (Or.inr ⟨h, ht⟩)
    · exact Or.inr (Or.inr ⟨h.symm, ht⟩)
  · exact Or.inr (Or.inl h)

/-- C8: the final report is sorted by `(account_id, block_timestamp)`
lexicographically: along consecutive rows the account id never decreases,
and within a run of equal account ids the block timestamp never
decreases. -/
theorem C8_report_sorted :
    ∀ (svc : FtService) (accounts : List String) (include_balances : Bool)
      (metadata : MetadataMap) (fetch : List String → TransactionType → List Transaction),
      List.Chain' (fun a b : ReportRow => a.account_id ≤ b.account_id ∧
        (a.account_id = b.account_id → a.block_timestamp ≤ b.block_timestamp))
        (get_txns_report svc accounts include_balances metadata fetch) := by
  intro svc accounts include_balances metadata fetch
  unfold get_txns_report
  apply List.Pairwise.chain'
  apply List.Pairwise.imp ?_ (List.sorted_mergeSort report_le_trans report_le_total _)
  intro a b hab
  simp only [report_le, Bool.or_eq_true, Bool.and_eq_true, decide_eq_true_eq,
    beq_iff_eq] at hab
  rcases hab with h | ⟨h1, h2⟩
  · exact ⟨le_of_lt h, fun heq => absurd heq (ne_of_lt h)⟩
  · exact ⟨le_of_eq h1, fun _ => h2⟩

/-- A SHA-256 digest is 32 bytes. -/
theorem sha256_bytes_length (msg : List Nat) : (sha256_bytes msg).length = 32 := rfl

/-- Hex rendering yields two characters per byte. -/
theorem hex_chars_length : ∀ bs : List Nat, (hex_chars bs).length = 2 * bs.length := by
  intro bs
  induction bs with
  | nil => rfl
  | cons b rest ih =>
      simp [hex_chars, ih]
      ring

/-- Every hex digit character is a lowercase hex character. -/
theorem hex_digit_lower (n : Nat) : is_lower_hex (hex_digit n) = true := by
  by_cases h : n < 16
  · exact (by decide : ∀ m < 16, is_lower_hex (hex_digit m) = true) n h
  · unfold hex_digit
    rw [List.getD_eq_default]
    · decide
    · push_neg at h
      calc "0123456789abcdef".data.length = 16 := by decide
        _ ≤ n := h

/-- Every character of a hex rendering is a lowercase hex character. -/
theorem hex_chars_lower : ∀ bs : List Nat, (hex_chars bs).all is_lower_hex = true := by
  intro bs
  induction bs with
  | nil => rfl
  | cons b rest ih =>
      simp [hex_chars, hex_digit_lower, ih]

/-- The hex digest string has 64 characters. -/
theorem sha256_data_length (a : String) : (sha256 a).data.length = 64 := by
  show (hex_chars (sha256_bytes (str_bytes a.data))).length = 64
  rw [hex_chars_length, sha256_bytes_length]

/-- C9: the lockup deriver applied with master "near" equals the spec
formula — the first 40 characters of the lowercase hex SHA-256 digest of
the account followed by ".lockup.near" — and, being a pure function,
identical inputs give identical outputs; the output decomposes as a 40
character lowercase-hex head followed by the ".lockup.near" suffix. -/
theorem C9_lockup_derivation :
    ∀ a : String,
      get_associated_lockup a "near" = lockup_of a ∧
      ∃ p : List Char,
        (get_associated_lockup a "near").data = p ++ (".lockup.near").data ∧
        p.length = 40 ∧
        p.all is_lower_hex = true := by
  intro a
  constructor
  · unfold get_associated_lockup lockup_of
    apply String.ext
    simp only [String.data_append]
    rfl
  · refine ⟨(sha256 a).data.take 40, ?_, ?_, ?_⟩
    · unfold get_associated_lockup
      simp only [String.data_append]
      rfl
    · rw [List.length_take, sha256_data_length]
      norm_num
    · rw [List.all_eq_true]
      intro c hc
      have hmem : c ∈ (sha256 a).data := List.take_subset _ _ hc
      have hall := hex_chars_lower (sha256_bytes (str_bytes a.data))
      rw [List.all_eq_true] at hall
      exact hall c hmem

/-- The embedded SHA-256 agrees with the standard test vector for "abc". -/
theorem sha256_test_vector :
    sha256 "abc" = "ba7816bf8f01cfea414140de5dae2223b00361a396177a9cb410ff61f20015ad" := rfl
